import Mathlib

/-!
Verification of the `slm_interface` module: a Python module defining two
dataclasses (`Exercise`, `Evaluation`) and an abstract base class
(`SLMInterface`) with three abstract methods.  The definitions below are a
shallow embedding of that module: Python `float` values are modelled by
`PyFloat` (finite rationals plus the two infinities and NaN), Python `Any`
values by `PyValue`, dataclass field declarations by explicit field lists,
and dataclass construction defaults by explicit constructor functions.
-/

namespace SlmInterface

/-- Model of a Python `float` value: a finite value (modelled as a rational),
positive or negative infinity, or NaN.  The Python type `float` admits all
four kinds of value; no arithmetic is needed for this development, only the
value domain and Python equality. -/
inductive PyFloat where
  | finite (q : Rat)
  | inf
  | negInf
  | nan
deriving DecidableEq

/-- Whether a Python float value is finite (neither an infinity nor NaN),
as Python's `math.isfinite` reports. -/
def PyFloat.isFinite : PyFloat → Bool
  | .finite _ => true
  | _ => false

/-- Python `==` on float values: NaN compares unequal to everything,
including itself; infinities compare equal only to themselves; finite
values compare by value. -/
def PyFloat.pyEq : PyFloat → PyFloat → Bool
  | .nan, _ => false
  | _, .nan => false
  | .inf, .inf => true
  | .negInf, .negInf => true
  | .finite a, .finite b => a == b
  | _, _ => false

/-- Model of a Python value of static type `Any`, covering the kinds of
value that cross this interface (the `answer` field and `metadata` values). -/
inductive PyValue where
  | pyNone
  | bool (b : Bool)
  | int (n : Int)
  | float (f : PyFloat)
  | str (s : String)
deriving DecidableEq

/-- Python `==` on `PyValue`, restricted to same-kind comparisons (the
fields compared in this development are always annotation-typed, so no
cross-kind numeric comparison arises). -/
def PyValue.pyEq : PyValue → PyValue → Bool
  | .pyNone, .pyNone => true
  | .bool a, .bool b => a == b
  | .int a, .int b => a == b
  | .float a, .float b => PyFloat.pyEq a b
  | .str a, .str b => a == b
  | _, _ => false

/-- Python `==` on tuples of values, as used by the generated dataclass
`__eq__`: equal length and element-wise `==`. -/
def pyTupleEq (xs ys : List PyValue) : Bool :=
  xs.length == ys.length && (List.zip xs ys).all (fun p => PyValue.pyEq p.1 p.2)

/-- The `Exercise` dataclass (src/slm_interface.py lines 18-41): fields
`prompt : str`, `options : Optional[List[str]] = None`,
`answer : Optional[Any] = None`, `metadata : Dict[str, Any]` with
`default_factory=dict`.  The metadata mapping is modelled as an association
list of string keys to values. -/
structure Exercise where
  prompt : String
  options : Option (List String)
  answer : Option PyValue
  metadata : List (String × PyValue)
deriving DecidableEq

/-- Calling the generated `Exercise.__init__` with only the required
`prompt` argument: the declared defaults give `options = None`,
`answer = None`, and a freshly created empty dict for `metadata`. -/
def Exercise.fromPrompt (p : String) : Exercise :=
  { prompt := p, options := Option.none, answer := Option.none, metadata := [] }

/-- Which fields of `Exercise` carry a default in the dataclass declaration
(field name paired with whether a default exists), in declaration order. -/
def Exercise.fieldHasDefault : List (String × Bool) :=
  [("prompt", false), ("options", true), ("answer", true), ("metadata", true)]

/-- The `Evaluation` dataclass (src/slm_interface.py lines 44-50): fields
`is_correct : bool`, `score : float`, `feedback : Optional[str] = None`. -/
structure Evaluation where
  is_correct : Bool
  score : PyFloat
  feedback : Option String
deriving DecidableEq

/-- Calling the generated `Evaluation.__init__` with only the required
`is_correct` and `score` arguments: the declared default gives
`feedback = None`. -/
def Evaluation.fromRequired (b : Bool) (s : PyFloat) : Evaluation :=
  { is_correct := b, score := s, feedback := Option.none }

/-- Which fields of `Evaluation` carry a default in the dataclass
declaration, in declaration order. -/
def Evaluation.fieldHasDefault : List (String × Bool) :=
  [("is_correct", false), ("score", false), ("feedback", true)]

/-- The tuple of field values the generated dataclass `__eq__` of
`Evaluation` compares, injected into the dynamic value domain. -/
def Evaluation.fieldTuple (e : Evaluation) : List PyValue :=
  [PyValue.bool e.is_correct, PyValue.float e.score,
   match e.feedback with
   | Option.none => PyValue.pyNone
   | Option.some s => PyValue.str s]

/-- The generated `Evaluation.__eq__` (dataclasses generate `eq=True` by
default): compare the tuples of field values with Python tuple equality. -/
def Evaluation.dataclassEq (a b : Evaluation) : Bool :=
  pyTupleEq a.fieldTuple b.fieldTuple

/-- The `frozen` flag of the `Exercise` dataclass declaration: the source
uses the bare `@dataclass` decorator, whose `frozen` parameter defaults to
`False`, so attribute assignment is permitted. -/
def Exercise.frozenFlag : Bool := false

/-- Python attribute assignment `ex.prompt = v` on an `Exercise` instance:
a frozen dataclass would raise `FrozenInstanceError`; a non-frozen one
updates the field in place. -/
def Exercise.setattrPrompt (e : Exercise) (v : String) : Except String Exercise :=
  if Exercise.frozenFlag then Except.error "FrozenInstanceError"
  else Except.ok { e with prompt := v }

/-- Kind of a parameter in a Python function signature. -/
inductive ParamKind where
  | positionalOrKeyword
  | keywordOnly
  | varKeyword
deriving DecidableEq

/-- Whether an argument may be passed positionally to a parameter of the
given kind. -/
def ParamKind.acceptsPositional : ParamKind → Bool
  | .positionalOrKeyword => true
  | _ => false

/-- Signature of `SLMInterface.generate_exercise`
(src/slm_interface.py line 57): `(self, *, exercise_type: str, level: str,
**kwargs: Any)`.  The bare `*` makes `exercise_type` and `level`
keyword-only. -/
def generate_exercise_sig : List (String × ParamKind) :=
  [("self", ParamKind.positionalOrKeyword),
   ("exercise_type", ParamKind.keywordOnly),
   ("level", ParamKind.keywordOnly),
   ("kwargs", ParamKind.varKeyword)]

/-- Signature of `SLMInterface.evaluate_response`
(src/slm_interface.py line 72): `(self, exercise: Exercise, response: str,
**kwargs: Any)`. -/
def evaluate_response_sig : List (String × ParamKind) :=
  [("self", ParamKind.positionalOrKeyword),
   ("exercise", ParamKind.positionalOrKeyword),
   ("response", ParamKind.positionalOrKeyword),
   ("kwargs", ParamKind.varKeyword)]

/-- Signature of `SLMInterface.provide_feedback`
(src/slm_interface.py line 76): `(self, exercise: Exercise, response: str,
**kwargs: Any)`. -/
def provide_feedback_sig : List (String × ParamKind) :=
  [("self", ParamKind.positionalOrKeyword),
   ("exercise", ParamKind.positionalOrKeyword),
   ("response", ParamKind.positionalOrKeyword),
   ("kwargs", ParamKind.varKeyword)]

/-- Static type expressions appearing in the two dataclass declarations,
including constructors for references to the record types themselves so
that absence of cross-references is a meaningful check. -/
inductive PyTy where
  | strTy
  | boolTy
  | floatTy
  | anyTy
  | optionalTy (t : PyTy)
  | listTy (t : PyTy)
  | dictTy (k v : PyTy)
  | exerciseTy
  | evaluationTy
deriving DecidableEq

/-- Whether a type expression mentions the `Exercise` record type. -/
def PyTy.mentionsExerciseTy : PyTy → Bool
  | .exerciseTy => true
  | .optionalTy t => t.mentionsExerciseTy
  | .listTy t => t.mentionsExerciseTy
  | .dictTy k v => k.mentionsExerciseTy || v.mentionsExerciseTy
  | _ => false

/-- Whether a type expression mentions the `Evaluation` record type. -/
def PyTy.mentionsEvaluationTy : PyTy → Bool
  | .evaluationTy => true
  | .optionalTy t => t.mentionsEvaluationTy
  | .listTy t => t.mentionsEvaluationTy
  | .dictTy k v => k.mentionsEvaluationTy || v.mentionsEvaluationTy
  | _ => false

/-- The declared fields of the `Exercise` dataclass with their annotated
types, in declaration order (src/slm_interface.py lines 38-41). -/
def Exercise.dataclassFields : List (String × PyTy) :=
  [("prompt", PyTy.strTy),
   ("options", PyTy.optionalTy (PyTy.listTy PyTy.strTy)),
   ("answer", PyTy.optionalTy PyTy.anyTy),
   ("metadata", PyTy.dictTy PyTy.strTy PyTy.anyTy)]

/-- The declared fields of the `Evaluation` dataclass with their annotated
types, in declaration order (src/slm_interface.py lines 48-50). -/
def Evaluation.dataclassFields : List (String × PyTy) :=
  [("is_correct", PyTy.boolTy),
   ("score", PyTy.floatTy),
   ("feedback", PyTy.optionalTy PyTy.strTy)]

/-- Heap of dict objects, used to model Python object identity for the
`metadata` field: an address is an index into the list of live dicts. -/
structure DictHeap where
  dicts : List (List (String × PyValue))
deriving DecidableEq

/-- Allocate a fresh dict object on the heap, returning the new heap and
the address of the new object. -/
def DictHeap.alloc (h : DictHeap) (d : List (String × PyValue)) :
    DictHeap × Nat :=
  ({ dicts := h.dicts ++ [d] }, h.dicts.length)

/-- Read the dict object at an address. -/
def DictHeap.read (h : DictHeap) (r : Nat) : Option (List (String × PyValue)) :=
  h.dicts[r]?

/-- Python `d[k] = v` on an association-list dict: overwrite the value of
an existing key, else append the new binding. -/
def dictSet (d : List (String × PyValue)) (k : String) (v : PyValue) :
    List (String × PyValue) :=
  if d.any (fun kv => kv.1 == k) then
    d.map (fun kv => if kv.1 == k then (k, v) else kv)
  else d ++ [(k, v)]

/-- Python `h[r][k] = v`: mutate the dict object at address `r` in place. -/
def DictHeap.setItem (h : DictHeap) (r : Nat) (k : String) (v : PyValue) :
    DictHeap :=
  { dicts := h.dicts.set r (dictSet (h.dicts.getD r []) k v) }

/-- An `Exercise` instance as a heap object: the `metadata` field holds a
reference to a dict object rather than an inline value. -/
structure ExerciseObj where
  prompt : String
  options : Option (List String)
  answer : Option PyValue
  metadataRef : Nat
deriving DecidableEq

/-- Constructing `Exercise(prompt=p)` against the heap model: the
`default_factory=dict` declaration (src/slm_interface.py line 41) calls
`dict()` at each construction, allocating a fresh empty dict object for
this instance. -/
def Exercise.initDefault (h : DictHeap) (p : String) : DictHeap × ExerciseObj :=
  let r := h.alloc []
  (r.1, { prompt := p, options := Option.none, answer := Option.none,
          metadataRef := r.2 })

/-- Modelled from the spec: no concrete provider implementation exists
under src/ (the source only declares the abstract class `SLMInterface`
with three abstract method signatures and docstrings), so a concrete
provider is modelled as a record of the three operations together with the
set of `exercise_type`/`level` pairs it claims to support.  Keyword extra
parameters are irrelevant to the claimed property and omitted. -/
structure Provider where
  supported : List (String × String)
  generate_exercise : String → String → Exercise
  evaluate_response : Exercise → String → Evaluation
  provide_feedback : Exercise → String → String

/-- Modelled from the spec: conformance of a provider, per the spec's
testable property 1 — for every supported `exercise_type`/`level` pair,
`generate_exercise` returns an `Exercise` with non-empty `prompt`. -/
def Provider.conforming (p : Provider) : Bool :=
  p.supported.all (fun q => !(p.generate_exercise q.1 q.2).prompt.isEmpty)

/-- The example provider of the spec's scenario (testable property 6):
supports `fill_blank`/`beginner`, producing the cat-on-the-mat exercise. -/
def exampleProvider : Provider where
  supported := [("fill_blank", "beginner")]
  generate_exercise := fun et lv =>
    if et == "fill_blank" && lv == "beginner" then
      { prompt := "The cat ___ on the mat.", options := Option.none,
        answer := Option.some (PyValue.str "sat"), metadata := [] }
    else Exercise.fromPrompt "unsupported"
  evaluate_response := fun ex resp =>
    match ex.answer with
    | Option.some (PyValue.str a) =>
        if resp == a then Evaluation.fromRequired true (PyFloat.finite 1)
        else { is_correct := false, score := PyFloat.finite 0,
               feedback := Option.some ("Expected: " ++ a) }
    | _ => Evaluation.fromRequired false (PyFloat.finite 0)
  provide_feedback := fun _ _ => ""

/-- A Python class as the ABC machinery sees it: the set of names in its
`__abstractmethods__` attribute (abstract methods not yet overridden). -/
structure PyClass where
  abstracts : List String
deriving DecidableEq

/-- The `SLMInterface` class (src/slm_interface.py lines 53-77): an ABC
whose three methods are all decorated `@abstractmethod`. -/
def SLMInterface_class : PyClass :=
  { abstracts := ["generate_exercise", "evaluate_response", "provide_feedback"] }

/-- Deriving a concrete class from a base: methods defined by the subclass
are removed from the inherited set of abstract methods. -/
def PyClass.subclass (base : PyClass) (implemented : List String) : PyClass :=
  { abstracts := base.abstracts.filter (fun m => !(implemented.contains m)) }

/-- Instantiating a class: Python's ABC machinery raises `TypeError` when
`__abstractmethods__` is non-empty, and succeeds otherwise. -/
def PyClass.instantiate (c : PyClass) : Except String Unit :=
  if c.abstracts.isEmpty then Except.ok ()
  else Except.error "TypeError"

/-- C1 counterexample: `Evaluation(True, float("inf"))` constructs
successfully and carries a non-finite score, refuting the claim that the
`Evaluation` constructor admits only finite scores — the dataclass
performs no validation. -/
theorem evaluation_admits_infinite_score :
    (Evaluation.mk true PyFloat.inf Option.none).score.isFinite = false :=
  rfl

/-- C1 amended: every `Evaluation` has a strict boolean `is_correct`, but
the constructor does not restrict `score` to finite values: it stores any
float value unchanged, including infinities and NaN, so a constructed
`Evaluation` may carry a non-finite score.  Finiteness of `score` is a
contract obligation on implementers, not enforced by the constructor. -/
theorem evaluation_constructor_unvalidated :
    (∀ e : Evaluation, e.is_correct = true ∨ e.is_correct = false) ∧
    (∀ (b : Bool) (s : PyFloat) (f : Option String),
      (Evaluation.mk b s f).score = s ∧ (Evaluation.mk b s f).is_correct = b) ∧
    (∃ e : Evaluation, e.score.isFinite = false) := by
  refine ⟨fun e => ?_, fun b s f => ⟨rfl, rfl⟩,
    ⟨Evaluation.mk false PyFloat.nan Option.none, rfl⟩⟩
  cases e.is_correct
  · exact Or.inr rfl
  · exact Or.inl rfl

/-- C2 counterexample: `Exercise` is a non-frozen dataclass, so plain
attribute assignment — an operation available to every caller — succeeds
and changes the `prompt` field of a constructed `Exercise`, refuting the
claim that no caller-available operation can change its fields. -/
theorem exercise_setattr_mutates :
    Exercise.setattrPrompt (Exercise.fromPrompt "a") "b" =
      Except.ok (Exercise.mk "b" Option.none Option.none []) ∧
    (Exercise.fromPrompt "a").prompt ≠ "b" := by
  exact ⟨rfl, by decide⟩

/-- C2 amended: no operation of the contract itself mutates an `Exercise`,
but the dataclass is declared without `frozen=True`, so Python attribute
assignment is available to callers and succeeds, replacing the assigned
field; immutability is a convention, not enforced by the class. -/
theorem exercise_not_frozen (e : Exercise) (v : String) :
    Exercise.frozenFlag = false ∧
    Exercise.setattrPrompt e v = Except.ok { e with prompt := v } :=
  ⟨rfl, rfl⟩

/-- C3 counterexample: in the source, `generate_exercise` declares a bare
`*` before `exercise_type`, making it keyword-only; a keyword-only
parameter does not accept a positional argument, refuting the claim that
`generate_exercise` accepts `exercise_type` and `level` positionally. -/
theorem generate_exercise_keyword_only :
    generate_exercise_sig.lookup "exercise_type" =
      Option.some ParamKind.keywordOnly ∧
    ParamKind.acceptsPositional ParamKind.keywordOnly = false := by
  decide

/-- C3 amended: `evaluate_response` and `provide_feedback` accept
`exercise` and `response` positionally, and all three methods take the
open-ended extra parameters as `**kwargs`; but `generate_exercise` takes
`exercise_type` and `level` as keyword-only parameters (declared after a
bare `*`), not positionally. -/
theorem method_signatures :
    generate_exercise_sig.lookup "exercise_type" =
      Option.some ParamKind.keywordOnly ∧
    generate_exercise_sig.lookup "level" = Option.some ParamKind.keywordOnly ∧
    evaluate_response_sig.lookup "exercise" =
      Option.some ParamKind.positionalOrKeyword ∧
    evaluate_response_sig.lookup "response" =
      Option.some ParamKind.positionalOrKeyword ∧
    provide_feedback_sig.lookup "exercise" =
      Option.some ParamKind.positionalOrKeyword ∧
    provide_feedback_sig.lookup "response" =
      Option.some ParamKind.positionalOrKeyword ∧
    generate_exercise_sig.lookup "kwargs" = Option.some ParamKind.varKeyword ∧
    evaluate_response_sig.lookup "kwargs" = Option.some ParamKind.varKeyword ∧
    provide_feedback_sig.lookup "kwargs" = Option.some ParamKind.varKeyword := by
  decide

/-- C4: an `Exercise` constructed from a prompt alone has `options = None`
(free-form answer expected), `answer = None`, and an empty metadata
mapping; and `prompt` is the only field of the dataclass without a
default, hence the only required constructor argument. -/
theorem exercise_from_prompt_defaults (p : String) :
    (Exercise.fromPrompt p).prompt = p ∧
    (Exercise.fromPrompt p).options = Option.none ∧
    (Exercise.fromPrompt p).answer = Option.none ∧
    (Exercise.fromPrompt p).metadata = [] ∧
    Exercise.fieldHasDefault.filter (fun q => !q.2) = [("prompt", false)] :=
  ⟨rfl, rfl, rfl, rfl, by decide⟩

/-- C5: an `Evaluation` constructed from `is_correct` and `score` alone
has `feedback = None`, and `feedback` is the only field of the dataclass
carrying a default, hence the only optional constructor argument. -/
theorem evaluation_from_required_defaults (b : Bool) (s : PyFloat) :
    (Evaluation.fromRequired b s).is_correct = b ∧
    (Evaluation.fromRequired b s).score = s ∧
    (Evaluation.fromRequired b s).feedback = Option.none ∧
    Evaluation.fieldHasDefault.filter (fun q => q.2) = [("feedback", true)] :=
  ⟨rfl, rfl, rfl, by decide⟩

/-- C6: `Evaluation` equality is value equality: the generated dataclass
`__eq__` compares the tuples of field values, so whenever the
`is_correct`, `score`, and `feedback` fields of two `Evaluation` values
are respectively equal (scores compared with Python float equality), the
two values compare equal. -/
theorem evaluation_value_equality (a b : Evaluation)
    (h1 : a.is_correct = b.is_correct)
    (h2 : PyFloat.pyEq a.score b.score = true)
    (h3 : a.feedback = b.feedback) :
    Evaluation.dataclassEq a b = true := by
  cases a with
  | mk ac asc af =>
    cases b with
    | mk bc bsc bf =>
      simp only at h1 h2 h3
      subst h1
      subst h3
      cases af <;>
        simp [Evaluation.dataclassEq, Evaluation.fieldTuple, pyTupleEq,
          PyValue.pyEq, h2]

/-- C6 witness: two structurally equal concrete evaluations compare equal
under the dataclass equality. -/
theorem evaluation_value_equality_witness :
    Evaluation.dataclassEq
      (Evaluation.mk true (PyFloat.finite 1) (Option.some "ok"))
      (Evaluation.mk true (PyFloat.finite 1) (Option.some "ok")) = true :=
  evaluation_value_equality _ _ rfl (by decide) rfl

/-- C7: the `Exercise` dataclass declares exactly the fields `prompt`,
`options`, `answer`, `metadata`, and the `Evaluation` dataclass exactly
`is_correct`, `score`, `feedback`, in these orders; in particular neither
record carries an identifier field, and no declared field type mentions
the other record type. -/
theorem record_fields_exact :
    Exercise.dataclassFields.map Prod.fst =
      ["prompt", "options", "answer", "metadata"] ∧
    Evaluation.dataclassFields.map Prod.fst =
      ["is_correct", "score", "feedback"] ∧
    Exercise.dataclassFields.all
      (fun q => !PyTy.mentionsEvaluationTy q.2 && !PyTy.mentionsExerciseTy q.2) = true ∧
    Evaluation.dataclassFields.all
      (fun q => !PyTy.mentionsExerciseTy q.2 && !PyTy.mentionsEvaluationTy q.2) = true := by
  decide

/-- C8: for every provider conforming to the contract and every supported
`exercise_type`/`level` pair, `generate_exercise` returns an `Exercise`
whose `prompt` is a non-empty string. -/
theorem conforming_generate_nonempty_prompt (p : Provider)
    (hp : p.conforming = true) (et lv : String)
    (hs : (et, lv) ∈ p.supported) :
    (p.generate_exercise et lv).prompt ≠ "" := by
  intro hc
  have hall := List.all_eq_true.mp hp (et, lv) hs
  simp only [Bool.not_eq_eq_eq_not, Bool.not_true] at hall
  rw [show (p.generate_exercise (et, lv).1 (et, lv).2) = p.generate_exercise et lv
      from rfl, hc] at hall
  exact absurd hall (by decide)

/-- C8 witness: the spec's example provider conforms, and its generated
fill-blank exercise for beginners has a non-empty prompt. -/
theorem conforming_generate_nonempty_prompt_witness :
    (exampleProvider.generate_exercise "fill_blank" "beginner").prompt ≠ "" :=
  conforming_generate_nonempty_prompt exampleProvider (by decide)
    "fill_blank" "beginner" (by decide)

/-- Allocating on the heap and reading back the fresh address yields the
allocated dict. -/
theorem DictHeap.read_alloc_new (h : DictHeap) (d : List (String × PyValue)) :
    (h.alloc d).1.read (h.alloc d).2 = Option.some d :=
  List.getElem?_concat_length h.dicts d

/-- Allocation does not disturb previously allocated addresses. -/
theorem DictHeap.read_alloc_old (h : DictHeap) (d : List (String × PyValue))
    (r : Nat) (hr : r < h.dicts.length) : (h.alloc d).1.read r = h.read r :=
  List.getElem?_append_left hr

/-- Mutating the dict object at one address leaves every other address
unchanged. -/
theorem DictHeap.read_setItem_ne (h : DictHeap) (r r' : Nat) (k : String)
    (v : PyValue) (hne : r ≠ r') : (h.setItem r k v).read r' = h.read r' :=
  List.getElem?_set_ne hne

/-- C9: two `Exercise` values constructed from a prompt alone receive
distinct, freshly allocated empty metadata dict objects, and mutating the
metadata of either one leaves the metadata of the other unchanged: the
`default_factory=dict` declaration allocates per instance rather than
sharing one mutable default. -/
theorem metadata_default_factory_independence
    (h : DictHeap) (p1 p2 k1 k2 : String) (v1 v2 : PyValue) :
    ((Exercise.initDefault h p1).2.metadataRef ≠
      (Exercise.initDefault (Exercise.initDefault h p1).1 p2).2.metadataRef) ∧
    ((Exercise.initDefault (Exercise.initDefault h p1).1 p2).1.read
        (Exercise.initDefault h p1).2.metadataRef = Option.some []) ∧
    ((Exercise.initDefault (Exercise.initDefault h p1).1 p2).1.read
        (Exercise.initDefault (Exercise.initDefault h p1).1 p2).2.metadataRef =
      Option.some []) ∧
    (((Exercise.initDefault (Exercise.initDefault h p1).1 p2).1.setItem
        (Exercise.initDefault h p1).2.metadataRef k1 v1).read
        (Exercise.initDefault (Exercise.initDefault h p1).1 p2).2.metadataRef =
      (Exercise.initDefault (Exercise.initDefault h p1).1 p2).1.read
        (Exercise.initDefault (Exercise.initDefault h p1).1 p2).2.metadataRef) ∧
    (((Exercise.initDefault (Exercise.initDefault h p1).1 p2).1.setItem
        (Exercise.initDefault (Exercise.initDefault h p1).1 p2).2.metadataRef
        k2 v2).read (Exercise.initDefault h p1).2.metadataRef =
      (Exercise.initDefault (Exercise.initDefault h p1).1 p2).1.read
        (Exercise.initDefault h p1).2.metadataRef) := by
  simp only [Exercise.initDefault, DictHeap.alloc, DictHeap.read,
    DictHeap.setItem]
  refine ⟨by simp, ?_, ?_, ?_, ?_⟩
  · rw [List.getElem?_append_left (by simp)]
    exact List.getElem?_concat_length _ _
  · exact List.getElem?_concat_length _ _
  · exact List.getElem?_set_ne (by simp)
  · exact List.getElem?_set_ne (by simp)

/-- C10: `SLMInterface` has all three methods abstract, so instantiating
it directly raises `TypeError`; and a concrete subclass can only be
instantiated once it implements `generate_exercise`, `evaluate_response`,
and `provide_feedback`. -/
theorem slm_interface_not_instantiable (impl : List String) :
    SLMInterface_class.instantiate = Except.error "TypeError" ∧
    ((SLMInterface_class.subclass impl).instantiate = Except.ok () →
      ("generate_exercise" ∈ impl ∧ "evaluate_response" ∈ impl ∧
       "provide_feedback" ∈ impl)) := by
  refine ⟨rfl, fun hok => ?_⟩
  have hempty : (SLMInterface_class.subclass impl).abstracts = [] := by
    by_contra hne
    rw [PyClass.instantiate, if_neg (by simpa using hne)] at hok
    exact Except.noConfusion hok
  simp only [PyClass.subclass, SLMInterface_class,
    List.filter_eq_nil_iff] at hempty
  refine ⟨?_, ?_, ?_⟩
  · simpa using hempty "generate_exercise" (by simp)
  · simpa using hempty "evaluate_response" (by simp)
  · simpa using hempty "provide_feedback" (by simp)

/-- C10 witness: the abstract class itself fails to instantiate, and a
subclass implementing exactly the three methods instantiates successfully,
each method being among those implemented. -/
theorem slm_interface_not_instantiable_witness :
    SLMInterface_class.instantiate = Except.error "TypeError" ∧
    ("generate_exercise" ∈
        ["generate_exercise", "evaluate_response", "provide_feedback"] ∧
     "evaluate_response" ∈
        ["generate_exercise", "evaluate_response", "provide_feedback"] ∧
     "provide_feedback" ∈
        ["generate_exercise", "evaluate_response", "provide_feedback"]) :=
  ⟨(slm_interface_not_instantiable []).1,
   (slm_interface_not_instantiable
      ["generate_exercise", "evaluate_response", "provide_feedback"]).2
      rfl⟩

end SlmInterface
